import Mathlib

/-!
Shallow embedding of piglow-ambient (src/main.go): the fade scheduler tick,
the pause/resume quick-fade ramps, the ping liveness state machine and the
partial config reload. Times are rationals (seconds), brightness levels are
integers, the solar calculator is an abstract function parameter.
-/

namespace PiglowAmbient

/-- Modelled from the spec: the constant `MAX_POWER` is referenced by
`src/main.go` but defined in a file not present under `src/`; the spec's
data model ("BrightnessLevel: integer in [0, 255]") and the literal clamps
`power > 255` / `power < 0` in `main.go` fix it to 255. -/
def MAX_POWER : ℚ := 255

/-- A solar-event calculator: `(now, latitude, longitude) ↦ instant`.
Embeds `astrotime.NextSunset` / `astrotime.NextSunrise`, treated as an
abstract pure function (external collaborator). -/
abbrev SolarFn := ℚ → ℚ → ℚ → ℚ

/-- The mutable program state read and written by the main loop of
`main.go`: the effective coordinates held in `cfg` (`cfg.Settings.Latitude`
/ `.Longitude`), the local `transitionTime` fixed at startup, the local
`fadeInTime` / `fadeOutTime`, the global `currentPower` and the global
`isPaused` flag. -/
structure State where
  lat : ℚ
  lon : ℚ
  transT : ℕ
  fadeInTime : ℚ
  fadeOutTime : ℚ
  brightness : ℤ
  paused : Bool
deriving Repr, DecidableEq

/-- Fade-in brightness from `main.go` line 255:
`power = int(math.Ceil((MAX_POWER/float64(transitionTime))*elapsed.Seconds()))`,
then clamped to at most 255 (lines 256-258); arithmetic embedded exactly
over ℚ. -/
def fadeInPower (T : ℕ) (e : ℚ) : ℤ :=
  min ⌈MAX_POWER / (T : ℚ) * e⌉ 255

/-- Fade-out brightness from `main.go` line 273:
`power = 255-int(math.Floor((MAX_POWER/float64(transitionTime))*elapsed.Seconds()))`,
then clamped to at least 0 (lines 274-276). -/
def fadeOutPower (T : ℕ) (e : ℚ) : ℤ :=
  max (255 - ⌊MAX_POWER / (T : ℚ) * e⌋) 0

/-- The fade-in branch of one main-loop iteration (`main.go` lines 253-268):
if `now - fadeInTime > 0`, apply the clamped power via `setGlow` and, when
the applied power is ≥ 255, recompute `fadeInTime` from the next sunset
minus half the transition duration. Returns the new state and the list of
brightness levels passed to the driver. -/
def fadeInStep (sunset : SolarFn) (now : ℚ) (s : State) : State × List ℤ :=
  let e := now - s.fadeInTime
  if 0 < e then
    let power := fadeInPower s.transT e
    if 255 ≤ power then
      ({ s with brightness := power,
                fadeInTime := sunset now s.lat s.lon - (s.transT : ℚ) / 2 },
       [power])
    else
      ({ s with brightness := power }, [power])
  else
    (s, [])

/-- The fade-out branch of one main-loop iteration (`main.go` lines
271-286): if `now - fadeOutTime > 0`, apply the clamped power via `setGlow`
and, when the applied power is ≤ 0, recompute `fadeOutTime` from the next
sunrise minus half the transition duration. -/
def fadeOutStep (sunrise : SolarFn) (now : ℚ) (s : State) : State × List ℤ :=
  let e := now - s.fadeOutTime
  if 0 < e then
    let power := fadeOutPower s.transT e
    if power ≤ 0 then
      ({ s with brightness := power,
                fadeOutTime := sunrise now s.lat s.lon - (s.transT : ℚ) / 2 },
       [power])
    else
      ({ s with brightness := power }, [power])
  else
    (s, [])

/-- One iteration of the main loop (`main.go` lines 243-287) after the
sleep: if `isPaused` the tick is skipped entirely (`continue`), otherwise
the fade-in branch runs first and the fade-out branch second, both
unconditionally on the same tick. Returns the new state and the brightness
levels passed to the driver, in order. -/
def tick (sunset sunrise : SolarFn) (now : ℚ) (s : State) : State × List ℤ :=
  if s.paused then
    (s, [])
  else
    let r1 := fadeInStep sunset now s
    let r2 := fadeOutStep sunrise now r1.1
    (r2.1, r1.2 ++ r2.2)

/-- The fixed per-step delay (milliseconds) of the pause/resume quick
fades: `time.Millisecond * 35` in `main.go` lines 145 and 156. A constant:
it does not depend on the transition period. -/
def quickFadeStepDelayMs : ℕ := 35

/-- The brightness levels applied by the `pause()` ramp (`main.go` line
143): `for i := currentPower; i >= 0; i-- { setGlow(i) ... }`, i.e. the
descending sequence `currentPower, currentPower-1, …, 0` (empty if
`currentPower < 0`). -/
def pauseLevels (p : ℤ) : List ℤ :=
  if 0 ≤ p then (List.range (p.toNat + 1)).map (fun k : ℕ => p - (k : ℤ)) else []

/-- The brightness levels applied by the `resume()` ramp (`main.go` line
154): `for i := currentPower; i <= 255; i++ { setGlow(i) ... }`. -/
def resumeLevels (p : ℤ) : List ℤ :=
  if p ≤ 255 then (List.range ((255 - p).toNat + 1)).map (fun k : ℕ => p + (k : ℤ))
  else []

/-- `pause()` (`main.go` lines 138-147): sets `isPaused` and ramps
`currentPower` down step by step through `setGlow`; the state afterwards
holds the last level applied (or the old one if no step ran). -/
def pauseOp (s : State) : State × List ℤ :=
  let levels := pauseLevels s.brightness
  ({ s with paused := true, brightness := levels.getLast?.getD s.brightness },
   levels)

/-- `resume()` (`main.go` lines 149-158): clears `isPaused` and ramps
`currentPower` up step by step through `setGlow`. -/
def resumeOp (s : State) : State × List ℤ :=
  let levels := resumeLevels s.brightness
  ({ s with paused := false, brightness := levels.getLast?.getD s.brightness },
   levels)

/-- The brightness applied at startup (`setGlow(0)`, `main.go` line 230). -/
def initialGlowCall : ℤ := 0

/-- The runtime effect of `initConfig` on a SIGHUP reload (`main.go` lines
59-68, 71-76): the coordinates used by the scheduler are replaced; the
local `transitionTime`, `fadeInTime` and `fadeOutTime` of `main` and the
global `currentPower` are not touched. -/
def reloadConfig (lat lon : ℚ) (s : State) : State :=
  { s with lat := lat, lon := lon }

/-- Liveness state (`PingUnknown` / `PingUp` / `PingDown`): constants
referenced by `main.go` but declared in a file not present under `src/`;
modelled from the spec ("LivenessState: enum {Unknown, Up, Down}"). -/
inductive PingState
  | unknown
  | up
  | down
deriving Repr, DecidableEq

/-- A transition action fired by the liveness monitor: `pause()` or
`resume()`. -/
inductive PingAction
  | pauseA
  | resumeA
deriving Repr, DecidableEq

/-- One probe round, from the handlers installed in `initPing` (`main.go`
lines 98-123): if a reply arrived (`isRecv`), the receive handler fires
`resume()` when the previous state was `PingDown` and sets `PingUp`; if no
reply arrived, the idle handler fires `pause()` when the previous state was
`PingUp` or `PingUnknown` and sets `PingDown`. -/
def pingRound (s : PingState) (gotReply : Bool) : PingState × Option PingAction :=
  if gotReply then
    (.up, if s = .down then some .resumeA else none)
  else
    (.down, if s = .up ∨ s = .unknown then some .pauseA else none)

/-- The per-round transition actions produced by a sequence of probe-round
outcomes, starting from a given state. -/
def pingRun : PingState → List Bool → List (Option PingAction)
  | _, [] => []
  | s, b :: bs => (pingRound s b).2 :: pingRun (pingRound s b).1 bs

/-- Outcome of the host resolution in `initPing` (`main.go` lines 84-94):
`net.ResolveIPAddr` returns an error, or succeeds with a nil IP, or
succeeds with an address. -/
inductive ResolveOutcome
  | resolveError
  | noAddress
  | address
deriving Repr, DecidableEq

/-- What `initPing` does with the resolution outcome (`main.go` lines
86-94): an error is fatal to the process (`log.Fatalf`), a nil IP disables
the ping check (`return` before any handler or loop is set up), an address
enables the monitor. -/
inductive PingSetup
  | fatal
  | disabled
  | enabled
deriving Repr, DecidableEq

/-- The startup classification performed by `initPing` (`main.go` lines
84-94). -/
def initPing : ResolveOutcome → PingSetup
  | .resolveError => .fatal
  | .noAddress => .disabled
  | .address => .enabled

/-- The transition actions the liveness monitor produces over a whole run:
when the setup left it disabled (or startup was fatal) no probe round ever
runs, hence no actions; when enabled, the rounds run from `PingUnknown`. -/
def monitorActions (setup : PingSetup) (outcomes : List Bool) :
    List (Option PingAction) :=
  match setup with
  | .enabled => pingRun .unknown outcomes
  | _ => []

/-- A concrete state used to instantiate general theorems on concrete
inputs (coordinates from the spec's Scenario A). -/
def sampleState : State :=
  { lat := 52, lon := 49 / 10, transT := 3600, fadeInTime := 0,
    fadeOutTime := 0, brightness := 0, paused := false }

/-- A constant solar calculator, used to instantiate the abstract
`SolarFn` parameter on concrete inputs. -/
def constSolar (t : ℚ) : SolarFn := fun _ _ _ => t

/-! ## Characterization lemmas for the tick -/

theorem fadeInStep_snd (sunset : SolarFn) (now : ℚ) (s : State) :
    (fadeInStep sunset now s).2 =
      if 0 < now - s.fadeInTime then [fadeInPower s.transT (now - s.fadeInTime)]
      else [] := by
  rw [fadeInStep]
  by_cases h : 0 < now - s.fadeInTime
  · simp only [if_pos h]
    split <;> rfl
  · simp only [if_neg h]

theorem fadeOutStep_snd (sunrise : SolarFn) (now : ℚ) (s : State) :
    (fadeOutStep sunrise now s).2 =
      if 0 < now - s.fadeOutTime then [fadeOutPower s.transT (now - s.fadeOutTime)]
      else [] := by
  rw [fadeOutStep]
  by_cases h : 0 < now - s.fadeOutTime
  · simp only [if_pos h]
    split <;> rfl
  · simp only [if_neg h]

theorem fadeInStep_preserves (sunset : SolarFn) (now : ℚ) (s : State) :
    (fadeInStep sunset now s).1.fadeOutTime = s.fadeOutTime ∧
    (fadeInStep sunset now s).1.transT = s.transT ∧
    (fadeInStep sunset now s).1.lat = s.lat ∧
    (fadeInStep sunset now s).1.lon = s.lon ∧
    (fadeInStep sunset now s).1.paused = s.paused := by
  rw [fadeInStep]
  by_cases h : 0 < now - s.fadeInTime
  · simp only [if_pos h]
    split <;> simp
  · simp only [if_neg h]
    simp

theorem fadeOutStep_preserves (sunrise : SolarFn) (now : ℚ) (s : State) :
    (fadeOutStep sunrise now s).1.fadeInTime = s.fadeInTime ∧
    (fadeOutStep sunrise now s).1.transT = s.transT ∧
    (fadeOutStep sunrise now s).1.lat = s.lat ∧
    (fadeOutStep sunrise now s).1.lon = s.lon ∧
    (fadeOutStep sunrise now s).1.paused = s.paused := by
  rw [fadeOutStep]
  by_cases h : 0 < now - s.fadeOutTime
  · simp only [if_pos h]
    split <;> simp
  · simp only [if_neg h]
    simp

theorem fadeInStep_fst_fadeInTime (sunset : SolarFn) (now : ℚ) (s : State) :
    (fadeInStep sunset now s).1.fadeInTime =
      if 0 < now - s.fadeInTime ∧ 255 ≤ fadeInPower s.transT (now - s.fadeInTime)
      then sunset now s.lat s.lon - (s.transT : ℚ) / 2
      else s.fadeInTime := by
  rw [fadeInStep]
  by_cases h : 0 < now - s.fadeInTime
  · simp only [if_pos h]
    by_cases h2 : 255 ≤ fadeInPower s.transT (now - s.fadeInTime)
    · simp only [if_pos h2, if_pos (And.intro h h2)]
    · simp only [if_neg h2, if_neg (fun hc : _ ∧ _ => h2 hc.2)]
  · simp only [if_neg h, if_neg (fun hc : _ ∧ _ => h hc.1)]

theorem fadeOutStep_fst_fadeOutTime (sunrise : SolarFn) (now : ℚ) (s : State) :
    (fadeOutStep sunrise now s).1.fadeOutTime =
      if 0 < now - s.fadeOutTime ∧ fadeOutPower s.transT (now - s.fadeOutTime) ≤ 0
      then sunrise now s.lat s.lon - (s.transT : ℚ) / 2
      else s.fadeOutTime := by
  rw [fadeOutStep]
  by_cases h : 0 < now - s.fadeOutTime
  · simp only [if_pos h]
    by_cases h2 : fadeOutPower s.transT (now - s.fadeOutTime) ≤ 0
    · simp only [if_pos h2, if_pos (And.intro h h2)]
    · simp only [if_neg h2, if_neg (fun hc : _ ∧ _ => h2 hc.2)]
  · simp only [if_neg h, if_neg (fun hc : _ ∧ _ => h hc.1)]

theorem fadeInStep_fst_brightness (sunset : SolarFn) (now : ℚ) (s : State) :
    (fadeInStep sunset now s).1.brightness =
      if 0 < now - s.fadeInTime then fadeInPower s.transT (now - s.fadeInTime)
      else s.brightness := by
  rw [fadeInStep]
  by_cases h : 0 < now - s.fadeInTime
  · simp only [if_pos h]
    split <;> rfl
  · simp only [if_neg h]

theorem fadeOutStep_fst_brightness (sunrise : SolarFn) (now : ℚ) (s : State) :
    (fadeOutStep sunrise now s).1.brightness =
      if 0 < now - s.fadeOutTime then fadeOutPower s.transT (now - s.fadeOutTime)
      else s.brightness := by
  rw [fadeOutStep]
  by_cases h : 0 < now - s.fadeOutTime
  · simp only [if_pos h]
    split <;> rfl
  · simp only [if_neg h]

theorem tick_snd (sunset sunrise : SolarFn) (now : ℚ) (s : State) :
    (tick sunset sunrise now s).2 =
      if s.paused then []
      else
        (if 0 < now - s.fadeInTime then [fadeInPower s.transT (now - s.fadeInTime)]
         else []) ++
        (if 0 < now - s.fadeOutTime then [fadeOutPower s.transT (now - s.fadeOutTime)]
         else []) := by
  rw [tick]
  by_cases hp : s.paused
  · simp only [hp, if_pos trivial, if_true]
  · simp only [hp, if_false, Bool.false_eq_true]
    have h1 := fadeInStep_snd sunset now s
    have h2 := fadeOutStep_snd sunrise now (fadeInStep sunset now s).1
    have hpres := fadeInStep_preserves sunset now s
    rw [h1, h2, hpres.1, hpres.2.1]

theorem tick_fst_paused (sunset sunrise : SolarFn) (now : ℚ) (s : State) :
    (tick sunset sunrise now s).1.paused = s.paused := by
  rw [tick]
  by_cases hp : s.paused
  · simp only [hp, if_true]
  · simp only [hp, Bool.false_eq_true, if_false]
    rw [(fadeOutStep_preserves sunrise now _).2.2.2.2,
      (fadeInStep_preserves sunset now s).2.2.2.2]
    simp_all


theorem tick_fst_fadeInTime (sunset sunrise : SolarFn) (now : ℚ) (s : State)
    (hp : s.paused = false) :
    (tick sunset sunrise now s).1.fadeInTime =
      if 0 < now - s.fadeInTime ∧ 255 ≤ fadeInPower s.transT (now - s.fadeInTime)
      then sunset now s.lat s.lon - (s.transT : ℚ) / 2
      else s.fadeInTime := by
  rw [tick, hp]
  simp only [Bool.false_eq_true, if_false]
  rw [(fadeOutStep_preserves sunrise now _).1, fadeInStep_fst_fadeInTime]

theorem tick_fst_fadeOutTime (sunset sunrise : SolarFn) (now : ℚ) (s : State)
    (hp : s.paused = false) :
    (tick sunset sunrise now s).1.fadeOutTime =
      if 0 < now - s.fadeOutTime ∧ fadeOutPower s.transT (now - s.fadeOutTime) ≤ 0
      then sunrise now s.lat s.lon - (s.transT : ℚ) / 2
      else s.fadeOutTime := by
  rw [tick, hp]
  simp only [Bool.false_eq_true, if_false]
  have hpres := fadeInStep_preserves sunset now s
  rw [fadeOutStep_fst_fadeOutTime, hpres.1, hpres.2.1, hpres.2.2.1, hpres.2.2.2.1]

theorem tick_fst_brightness (sunset sunrise : SolarFn) (now : ℚ) (s : State) :
    (tick sunset sunrise now s).1.brightness =
      if s.paused then s.brightness
      else
        if 0 < now - s.fadeOutTime then fadeOutPower s.transT (now - s.fadeOutTime)
        else
          if 0 < now - s.fadeInTime then fadeInPower s.transT (now - s.fadeInTime)
          else s.brightness := by
  by_cases hp : s.paused
  · rw [tick]
    simp only [hp, if_true]
  · rw [tick]
    simp only [hp, Bool.false_eq_true, if_false]
    have hpres := fadeInStep_preserves sunset now s
    rw [fadeOutStep_fst_brightness, hpres.1, hpres.2.1, fadeInStep_fst_brightness]

theorem fadeInPower_bounds (T : ℕ) (e : ℚ) (he : 0 ≤ e) :
    0 ≤ fadeInPower T e ∧ fadeInPower T e ≤ 255 := by
  constructor
  · apply le_min
    · apply Int.ceil_nonneg
      apply mul_nonneg _ he
      rw [MAX_POWER]
      positivity
    · norm_num
  · exact min_le_right _ _

theorem fadeOutPower_bounds (T : ℕ) (e : ℚ) (he : 0 ≤ e) :
    0 ≤ fadeOutPower T e ∧ fadeOutPower T e ≤ 255 := by
  constructor
  · exact le_max_right _ _
  · apply max_le _ (by norm_num)
    have h0 : (0 : ℤ) ≤ ⌊MAX_POWER / (T : ℚ) * e⌋ := by
      apply Int.floor_nonneg.mpr
      apply mul_nonneg _ he
      rw [MAX_POWER]
      positivity
    omega

theorem pauseLevels_mem (p x : ℤ) (hx : x ∈ pauseLevels p) : 0 ≤ x ∧ x ≤ p := by
  rw [pauseLevels] at hx
  by_cases hp : 0 ≤ p
  · rw [if_pos hp] at hx
    simp only [List.mem_map, List.mem_range] at hx
    obtain ⟨k, hk, rfl⟩ := hx
    omega
  · rw [if_neg hp] at hx
    exact absurd hx (List.not_mem_nil x)

theorem resumeLevels_mem (p x : ℤ) (hp : 0 ≤ p) (hx : x ∈ resumeLevels p) :
    0 ≤ x ∧ x ≤ 255 := by
  rw [resumeLevels] at hx
  by_cases hle : p ≤ 255
  · rw [if_pos hle] at hx
    simp only [List.mem_map, List.mem_range] at hx
    obtain ⟨k, hk, rfl⟩ := hx
    omega
  · rw [if_neg hle] at hx
    exact absurd hx (List.not_mem_nil x)

theorem pauseLevels_spec (p : ℤ) (hp : 0 ≤ p) :
    (pauseLevels p).length = p.toNat + 1 ∧
    (pauseLevels p).head? = some p ∧
    (pauseLevels p).getLast? = some 0 ∧
    List.Chain' (fun a b : ℤ => b = a - 1) (pauseLevels p) := by
  rw [pauseLevels, if_pos hp]
  refine ⟨by simp, ?_, ?_, ?_⟩
  · rw [List.range_succ_eq_map]
    simp
  · rw [List.range_succ, List.map_append, List.map_singleton,
      List.getLast?_concat]
    rw [Int.toNat_of_nonneg hp]
    simp
  · rw [List.chain'_map, List.chain'_range_succ]
    intro m hm
    push_cast
    ring

/-! ## Claim theorems -/

/-- C1, counterexample: the claim also covers the case where host
resolution fails with an error, but there `initPing` calls `log.Fatalf`
(process abort), which is not the disabled-monitor behaviour: the main
fade loop does not proceed at all. -/
theorem C1_counterexample :
    initPing ResolveOutcome.resolveError = PingSetup.fatal ∧
    PingSetup.fatal ≠ PingSetup.disabled := by
  exact ⟨rfl, by decide⟩

/-- C1 (amended): if host resolution succeeds but yields no address, the
LivenessMonitor is disabled entirely — no probe round ever runs and no
pause/resume action is ever produced for the remainder of the run — while
a resolution error is fatal to process startup. -/
theorem C1_no_address_disables_monitor :
    initPing ResolveOutcome.noAddress = PingSetup.disabled ∧
    (∀ outcomes : List Bool,
      monitorActions (initPing ResolveOutcome.noAddress) outcomes = []) ∧
    initPing ResolveOutcome.resolveError = PingSetup.fatal := by
  exact ⟨rfl, fun _ => rfl, rfl⟩

/-- C6: from the initial `PingUnknown` state, the probe-round outcome
sequence reply, reply, no-reply, no-reply, reply fires pause exactly once
(round 3, Up to Down) and resume exactly once (round 5, Down to Up), and a
repeated round with the same outcome never fires an action. -/
theorem C6_liveness_transition_sequence :
    pingRun PingState.unknown [true, true, false, false, true] =
      [none, none, some PingAction.pauseA, none, some PingAction.resumeA] ∧
    ∀ (st : PingState) (b : Bool), (pingRound (pingRound st b).1 b).2 = none := by
  constructor
  · decide
  · intro st b
    cases st <;> cases b <;> decide

/-- C2: for `transitionSeconds > 0` and elapsed `0 ≤ e ≤ transitionSeconds`,
the fade-in brightness applied by a scheduler tick equals
`clamp(ceil(255 * e / transitionSeconds), 0, 255)`, is monotonically
non-decreasing in `e`, and is exactly the first driver call of a tick whose
fade-in window is open. -/
theorem C2_fadeIn_formula_monotone (T : ℕ) (e eNext : ℚ)
    (hT : 0 < T) (he : 0 ≤ e) (heT : e ≤ (T : ℚ)) (hee : e ≤ eNext) :
    fadeInPower T e = max 0 (min ⌈255 * e / (T : ℚ)⌉ 255) ∧
    fadeInPower T e ≤ fadeInPower T eNext ∧
    ∀ (sunset sunrise : SolarFn) (s : State),
      s.paused = false → s.transT = T → 0 < e →
      (tick sunset sunrise (s.fadeInTime + e) s).2.head? =
        some (fadeInPower T e) := by
  have harg : MAX_POWER / (T : ℚ) * e = 255 * e / (T : ℚ) := by
    rw [MAX_POWER]; ring
  have hnn : (0 : ℚ) ≤ MAX_POWER / (T : ℚ) := by
    rw [MAX_POWER]; positivity
  refine ⟨?_, ?_, ?_⟩
  · rw [fadeInPower, harg]
    have h0 : (0 : ℤ) ≤ ⌈255 * e / (T : ℚ)⌉ :=
      Int.ceil_nonneg (div_nonneg (mul_nonneg (by norm_num) he) (Nat.cast_nonneg T))
    exact (max_eq_right (le_min h0 (by norm_num))).symm
  · rw [fadeInPower, fadeInPower]
    exact min_le_min (Int.ceil_mono (mul_le_mul_of_nonneg_left hee hnn)) le_rfl
  · intro sunset sunrise s hp hTT hepos
    rw [tick, hp]
    simp only [Bool.false_eq_true, if_false]
    have h1 : (fadeInStep sunset (s.fadeInTime + e) s).2 = [fadeInPower T e] := by
      rw [fadeInStep_snd, add_sub_cancel_left, if_pos hepos, hTT]
    rw [h1]
    rfl

/-- C2 witness at `transitionSeconds = 3600`, `e = 1800`, `eNext = 2700`,
on a concrete state whose fade-in window is open. -/
theorem C2_fadeIn_formula_monotone_witness :
    fadeInPower 3600 1800 = max 0 (min ⌈255 * 1800 / ((3600 : ℕ) : ℚ)⌉ 255) ∧
    fadeInPower 3600 1800 ≤ fadeInPower 3600 2700 ∧
    (tick (constSolar 97200) (constSolar 90000)
        ((State.mk 52 (49 / 10) 3600 0 90000 0 false).fadeInTime + 1800)
        (State.mk 52 (49 / 10) 3600 0 90000 0 false)).2.head? =
      some (fadeInPower 3600 1800) := by
  obtain ⟨h1, h2, h3⟩ :=
    C2_fadeIn_formula_monotone 3600 1800 2700 (by norm_num) (by norm_num)
      (by norm_num) (by norm_num)
  exact ⟨h1, h2, h3 (constSolar 97200) (constSolar 90000)
    (State.mk 52 (49 / 10) 3600 0 90000 0 false) rfl rfl (by norm_num)⟩

/-- C3: for `transitionSeconds > 0` and elapsed `0 ≤ e ≤ transitionSeconds`,
the fade-out brightness applied by a scheduler tick equals
`clamp(255 - floor(255 * e / transitionSeconds), 0, 255)`, is monotonically
non-increasing in `e`, and is exactly the last driver call of a tick whose
fade-out window is open. -/
theorem C3_fadeOut_formula_antitone (T : ℕ) (e eNext : ℚ)
    (hT : 0 < T) (he : 0 ≤ e) (heT : e ≤ (T : ℚ)) (hee : e ≤ eNext) :
    fadeOutPower T e = max 0 (min (255 - ⌊255 * e / (T : ℚ)⌋) 255) ∧
    fadeOutPower T eNext ≤ fadeOutPower T e ∧
    ∀ (sunset sunrise : SolarFn) (s : State),
      s.paused = false → s.transT = T → 0 < e →
      (tick sunset sunrise (s.fadeOutTime + e) s).2.getLast? =
        some (fadeOutPower T e) := by
  have harg : MAX_POWER / (T : ℚ) * e = 255 * e / (T : ℚ) := by
    rw [MAX_POWER]; ring
  have hnn : (0 : ℚ) ≤ MAX_POWER / (T : ℚ) := by
    rw [MAX_POWER]; positivity
  refine ⟨?_, ?_, ?_⟩
  · rw [fadeOutPower, harg]
    have h0 : (0 : ℤ) ≤ ⌊255 * e / (T : ℚ)⌋ :=
      Int.floor_nonneg.mpr
        (div_nonneg (mul_nonneg (by norm_num) he) (Nat.cast_nonneg T))
    rw [min_eq_left (by omega), max_comm]
  · rw [fadeOutPower, fadeOutPower]
    refine max_le_max (sub_le_sub_left ?_ 255) le_rfl
    exact Int.floor_mono (mul_le_mul_of_nonneg_left hee hnn)
  · intro sunset sunrise s hp hTT hepos
    rw [tick, hp]
    simp only [Bool.false_eq_true, if_false]
    have hpres := fadeInStep_preserves sunset (s.fadeOutTime + e) s
    have h2 : (fadeOutStep sunrise (s.fadeOutTime + e)
        (fadeInStep sunset (s.fadeOutTime + e) s).1).2 = [fadeOutPower T e] := by
      rw [fadeOutStep_snd, hpres.1, hpres.2.1, add_sub_cancel_left,
        if_pos hepos, hTT]
    rw [h2, List.getLast?_concat]

/-- C3 witness at `transitionSeconds = 3600`, `e = 1800`, `eNext = 2700`,
on a concrete state whose fade-out window is open. -/
theorem C3_fadeOut_formula_antitone_witness :
    fadeOutPower 3600 1800 = max 0 (min (255 - ⌊255 * 1800 / ((3600 : ℕ) : ℚ)⌋) 255) ∧
    fadeOutPower 3600 2700 ≤ fadeOutPower 3600 1800 ∧
    (tick (constSolar 97200) (constSolar 90000)
        ((State.mk 52 (49 / 10) 3600 90000 0 0 false).fadeOutTime + 1800)
        (State.mk 52 (49 / 10) 3600 90000 0 0 false)).2.getLast? =
      some (fadeOutPower 3600 1800) := by
  obtain ⟨h1, h2, h3⟩ :=
    C3_fadeOut_formula_antitone 3600 1800 2700 (by norm_num) (by norm_num)
      (by norm_num) (by norm_num)
  exact ⟨h1, h2, h3 (constSolar 97200) (constSolar 90000)
    (State.mk 52 (49 / 10) 3600 90000 0 0 false) rfl rfl (by norm_num)⟩

/-- C4: the fade-in window opens strictly after `fadeInTime` (`elapsed > 0`
in `main.go` line 253, not `>=`): a tick at exactly `t = fadeInTime` — with
`transitionSeconds = 3600` and `fadeInTime = sunset - 1800` this is
`now = sunset - 1800` — applies nothing and leaves the state unchanged, so
brightness still reads 0. -/
theorem C4_fadeIn_boundary_strict (sunset sunrise : SolarFn) (s : State)
    (sunsetT : ℚ)
    (hT : s.transT = 3600)
    (hfi : s.fadeInTime = sunsetT - 1800)
    (hp : s.paused = false)
    (hb : s.brightness = 0)
    (hout : sunsetT - 1800 ≤ s.fadeOutTime) :
    tick sunset sunrise (sunsetT - 1800) s = (s, []) ∧
    (tick sunset sunrise (sunsetT - 1800) s).1.brightness = 0 := by
  have h1 : ¬ (0 < sunsetT - 1800 - s.fadeInTime) := by
    rw [hfi]
    simp
  have h2 : ¬ (0 < sunsetT - 1800 - s.fadeOutTime) := by
    rw [not_lt]
    linarith
  have hin : fadeInStep sunset (sunsetT - 1800) s = (s, []) := by
    simp only [fadeInStep, if_neg h1]
  have hout2 : fadeOutStep sunrise (sunsetT - 1800) s = (s, []) := by
    simp only [fadeOutStep, if_neg h2]
  have ht : tick sunset sunrise (sunsetT - 1800) s = (s, []) := by
    rw [tick, hp]
    simp only [Bool.false_eq_true, if_false, hin, hout2]
    rfl
  refine ⟨ht, ?_⟩
  rw [ht]
  exact hb

/-- C4 witness: `sunset = 97200`, `fadeInTime = 97200 - 1800`. -/
theorem C4_fadeIn_boundary_strict_witness :
    tick (constSolar 97200) (constSolar 90000) (97200 - 1800)
        (State.mk 52 (49 / 10) 3600 (97200 - 1800) 97200 0 false) =
      (State.mk 52 (49 / 10) 3600 (97200 - 1800) 97200 0 false, []) ∧
    (tick (constSolar 97200) (constSolar 90000) (97200 - 1800)
        (State.mk 52 (49 / 10) 3600 (97200 - 1800) 97200 0 false)).1.brightness = 0 :=
  C4_fadeIn_boundary_strict (constSolar 97200) (constSolar 90000)
    (State.mk 52 (49 / 10) 3600 (97200 - 1800) 97200 0 false) 97200
    rfl rfl rfl rfl (by norm_num)

/-- C5: `pause()` triggered with `currentPower = 180` ramps the brightness
down to exactly 0 through 181 driver calls `180, 179, …, 0` — exactly 180
unit decrements — with a fixed 35 ms per-step delay that does not depend on
the transition period, and a tick on the resulting paused state changes
nothing until `resume()`. -/
theorem C5_pause_ramp_from_180 (s : State) (h : s.brightness = 180) :
    (pauseOp s).2.length = 181 ∧
    (pauseOp s).2.head? = some 180 ∧
    (pauseOp s).2.getLast? = some 0 ∧
    List.Chain' (fun a b : ℤ => b = a - 1) (pauseOp s).2 ∧
    (pauseOp s).1.brightness = 0 ∧
    (pauseOp s).1.paused = true ∧
    quickFadeStepDelayMs = 35 ∧
    ∀ (sunset sunrise : SolarFn) (now : ℚ),
      tick sunset sunrise now (pauseOp s).1 = ((pauseOp s).1, []) := by
  have hspec := pauseLevels_spec 180 (by norm_num)
  have h2 : (pauseOp s).2 = pauseLevels 180 := by
    rw [show (pauseOp s).2 = pauseLevels s.brightness from rfl, h]
  have h1b : (pauseOp s).1.brightness = 0 := by
    rw [show (pauseOp s).1.brightness =
          (pauseLevels s.brightness).getLast?.getD s.brightness from rfl,
      h, hspec.2.2.1]
    rfl
  have h1p : (pauseOp s).1.paused = true := rfl
  refine ⟨?_, ?_, ?_, ?_, h1b, h1p, rfl, ?_⟩
  · rw [h2, hspec.1]
    decide
  · rw [h2, hspec.2.1]
  · rw [h2, hspec.2.2.1]
  · rw [h2]
    exact hspec.2.2.2
  · intro sunset sunrise now
    rfl

/-- C5 witness at a concrete state with `currentPower = 180`. -/
theorem C5_pause_ramp_from_180_witness :
    (pauseOp (State.mk 52 (49 / 10) 3600 0 0 180 false)).2.length = 181 ∧
    (pauseOp (State.mk 52 (49 / 10) 3600 0 0 180 false)).2.head? = some 180 ∧
    (pauseOp (State.mk 52 (49 / 10) 3600 0 0 180 false)).2.getLast? = some 0 ∧
    List.Chain' (fun a b : ℤ => b = a - 1)
      (pauseOp (State.mk 52 (49 / 10) 3600 0 0 180 false)).2 ∧
    (pauseOp (State.mk 52 (49 / 10) 3600 0 0 180 false)).1.brightness = 0 ∧
    (pauseOp (State.mk 52 (49 / 10) 3600 0 0 180 false)).1.paused = true ∧
    quickFadeStepDelayMs = 35 ∧
    tick (constSolar 97200) (constSolar 90000) 5
        (pauseOp (State.mk 52 (49 / 10) 3600 0 0 180 false)).1 =
      ((pauseOp (State.mk 52 (49 / 10) 3600 0 0 180 false)).1, []) := by
  obtain ⟨h1, h2, h3, h4, h5, h6, h7, h8⟩ :=
    C5_pause_ramp_from_180 (State.mk 52 (49 / 10) 3600 0 0 180 false) rfl
  exact ⟨h1, h2, h3, h4, h5, h6, h7, h8 (constSolar 97200) (constSolar 90000) 5⟩

/-- C10: on a tick where both fade windows are open, the fade-in branch is
evaluated first and the fade-out branch second: the driver is called twice,
in that order, and the brightness at the end of the tick is the fade-out
value. -/
theorem C10_both_windows_order (sunset sunrise : SolarFn) (now : ℚ) (s : State)
    (hp : s.paused = false)
    (hin : 0 < now - s.fadeInTime)
    (hout : 0 < now - s.fadeOutTime) :
    (tick sunset sunrise now s).2 =
      [fadeInPower s.transT (now - s.fadeInTime),
       fadeOutPower s.transT (now - s.fadeOutTime)] ∧
    (tick sunset sunrise now s).2.length = 2 ∧
    (tick sunset sunrise now s).1.brightness =
      fadeOutPower s.transT (now - s.fadeOutTime) := by
  have hcalls : (tick sunset sunrise now s).2 =
      [fadeInPower s.transT (now - s.fadeInTime),
       fadeOutPower s.transT (now - s.fadeOutTime)] := by
    rw [tick_snd, hp]
    simp only [Bool.false_eq_true, if_false, if_pos hin, if_pos hout]
    rfl
  refine ⟨hcalls, by rw [hcalls]; rfl, ?_⟩
  rw [tick_fst_brightness, hp]
  simp only [Bool.false_eq_true, if_false, if_pos hout]

/-- C10 witness: both windows open at `now = 100`, `T = 10`. -/
theorem C10_both_windows_order_witness :
    (tick (constSolar 200) (constSolar 300) 100
        (State.mk 52 (49 / 10) 10 0 0 0 false)).2 =
      [fadeInPower 10 (100 - 0), fadeOutPower 10 (100 - 0)] ∧
    (tick (constSolar 200) (constSolar 300) 100
        (State.mk 52 (49 / 10) 10 0 0 0 false)).2.length = 2 ∧
    (tick (constSolar 200) (constSolar 300) 100
        (State.mk 52 (49 / 10) 10 0 0 0 false)).1.brightness =
      fadeOutPower 10 (100 - 0) :=
  C10_both_windows_order (constSolar 200) (constSolar 300) 100
    (State.mk 52 (49 / 10) 10 0 0 0 false) rfl (by norm_num) (by norm_num)

theorem resumeLevels_getLast (p : ℤ) (hp : p ≤ 255) :
    (resumeLevels p).getLast? = some 255 := by
  rw [resumeLevels, if_pos hp, List.range_succ, List.map_append,
    List.map_singleton, List.getLast?_concat]
  rw [Int.toNat_of_nonneg (by omega)]
  congr 1
  ring

/-- C7: a tick recomputes `fadeInTime` exactly when the fade-in window is
open and the applied brightness reached 255, setting it to the next sunset
minus half the transition duration (and symmetrically `fadeOutTime` on a
fade-out reaching 0, from the next sunrise); and once recomputed, no
further tick recomputes the same fade time before the new window opens, so
a completed ramp causes exactly one recomputation. -/
theorem C7_recompute_exactly_once (sunset sunrise : SolarFn) (now : ℚ)
    (s : State) (hp : s.paused = false) :
    ((tick sunset sunrise now s).1.fadeInTime =
      if 0 < now - s.fadeInTime ∧ 255 ≤ fadeInPower s.transT (now - s.fadeInTime)
      then sunset now s.lat s.lon - (s.transT : ℚ) / 2
      else s.fadeInTime) ∧
    ((tick sunset sunrise now s).1.fadeOutTime =
      if 0 < now - s.fadeOutTime ∧ fadeOutPower s.transT (now - s.fadeOutTime) ≤ 0
      then sunrise now s.lat s.lon - (s.transT : ℚ) / 2
      else s.fadeOutTime) ∧
    (∀ nowNext : ℚ,
      nowNext ≤ (tick sunset sunrise now s).1.fadeInTime →
      (tick sunset sunrise nowNext (tick sunset sunrise now s).1).1.fadeInTime =
        (tick sunset sunrise now s).1.fadeInTime) ∧
    (∀ nowNext : ℚ,
      nowNext ≤ (tick sunset sunrise now s).1.fadeOutTime →
      (tick sunset sunrise nowNext (tick sunset sunrise now s).1).1.fadeOutTime =
        (tick sunset sunrise now s).1.fadeOutTime) := by
  have hp2 : (tick sunset sunrise now s).1.paused = false := by
    rw [tick_fst_paused, hp]
  refine ⟨tick_fst_fadeInTime sunset sunrise now s hp,
    tick_fst_fadeOutTime sunset sunrise now s hp, ?_, ?_⟩
  · intro nowNext hle
    rw [tick_fst_fadeInTime _ _ _ _ hp2, if_neg]
    rintro ⟨hc, -⟩
    exact absurd hc (not_lt.mpr (sub_nonpos.mpr hle))
  · intro nowNext hle
    rw [tick_fst_fadeOutTime _ _ _ _ hp2, if_neg]
    rintro ⟨hc, -⟩
    exact absurd hc (not_lt.mpr (sub_nonpos.mpr hle))

/-- C7 witness: a tick at `now = 7200` with `T = 3600` completes the
fade-in (power 255) and recomputes `fadeInTime`; a later tick while the
new window is closed leaves it alone. -/
theorem C7_recompute_exactly_once_witness :
    ((tick (constSolar 97200) (constSolar 90000) 7200
        (State.mk 52 (49 / 10) 3600 0 90000 0 false)).1.fadeInTime =
      if 0 < (7200 : ℚ) - 0 ∧ 255 ≤ fadeInPower 3600 ((7200 : ℚ) - 0)
      then constSolar 97200 7200 52 (49 / 10) - ((3600 : ℕ) : ℚ) / 2
      else 0) ∧
    ((tick (constSolar 97200) (constSolar 90000) 7200
        (State.mk 52 (49 / 10) 3600 0 90000 0 false)).1.fadeOutTime =
      if 0 < (7200 : ℚ) - 90000 ∧ fadeOutPower 3600 ((7200 : ℚ) - 90000) ≤ 0
      then constSolar 90000 7200 52 (49 / 10) - ((3600 : ℕ) : ℚ) / 2
      else 90000) ∧
    (tick (constSolar 97200) (constSolar 90000) 9000
        (tick (constSolar 97200) (constSolar 90000) 7200
          (State.mk 52 (49 / 10) 3600 0 90000 0 false)).1).1.fadeInTime =
      (tick (constSolar 97200) (constSolar 90000) 7200
        (State.mk 52 (49 / 10) 3600 0 90000 0 false)).1.fadeInTime := by
  obtain ⟨h1, h2, h3, -⟩ :=
    C7_recompute_exactly_once (constSolar 97200) (constSolar 90000) 7200
      (State.mk 52 (49 / 10) 3600 0 90000 0 false) rfl
  refine ⟨h1, h2, h3 9000 ?_⟩
  rw [h1, if_pos]
  · norm_num [constSolar]
  · constructor
    · norm_num
    · rw [fadeInPower, MAX_POWER]
      rw [show ((3600 : ℕ) : ℚ) = 3600 by norm_num]
      rw [show (255 : ℚ) / 3600 * (7200 - 0) = 510 by norm_num]
      rw [show ⌈(510 : ℚ)⌉ = 510 by norm_num]
      norm_num

/-- C8: a config reload replaces only the coordinates — `fadeInTime`,
`fadeOutTime`, the effective transition period, the brightness and the
paused flag are untouched — the driver calls and post-tick brightness of
any tick are independent of the coordinates, and the reloaded coordinates
first take effect in the fade-time recomputation performed when a ramp
completes. -/
theorem C8_reload_changes_only_coords (l o : ℚ) (sunset sunrise : SolarFn)
    (now : ℚ) (s : State) :
    (reloadConfig l o s).fadeInTime = s.fadeInTime ∧
    (reloadConfig l o s).fadeOutTime = s.fadeOutTime ∧
    (reloadConfig l o s).transT = s.transT ∧
    (reloadConfig l o s).brightness = s.brightness ∧
    (reloadConfig l o s).paused = s.paused ∧
    (reloadConfig l o s).lat = l ∧
    (reloadConfig l o s).lon = o ∧
    (tick sunset sunrise now (reloadConfig l o s)).2 =
      (tick sunset sunrise now s).2 ∧
    (tick sunset sunrise now (reloadConfig l o s)).1.brightness =
      (tick sunset sunrise now s).1.brightness ∧
    (s.paused = false →
      (tick sunset sunrise now (reloadConfig l o s)).1.fadeInTime =
        if 0 < now - s.fadeInTime ∧ 255 ≤ fadeInPower s.transT (now - s.fadeInTime)
        then sunset now l o - (s.transT : ℚ) / 2
        else s.fadeInTime) ∧
    (s.paused = false →
      (tick sunset sunrise now (reloadConfig l o s)).1.fadeOutTime =
        if 0 < now - s.fadeOutTime ∧ fadeOutPower s.transT (now - s.fadeOutTime) ≤ 0
        then sunrise now l o - (s.transT : ℚ) / 2
        else s.fadeOutTime) := by
  refine ⟨rfl, rfl, rfl, rfl, rfl, rfl, rfl, ?_, ?_, ?_, ?_⟩
  · rw [tick_snd, tick_snd]
    rfl
  · rw [tick_fst_brightness, tick_fst_brightness]
    rfl
  · intro hp
    rw [tick_fst_fadeInTime _ _ _ _ (show (reloadConfig l o s).paused = false from hp)]
    rfl
  · intro hp
    rw [tick_fst_fadeOutTime _ _ _ _ (show (reloadConfig l o s).paused = false from hp)]
    rfl

/-- C8 witness at a concrete reload during an open fade-in window. -/
theorem C8_reload_changes_only_coords_witness :
    (reloadConfig 48 2 (State.mk 52 (49 / 10) 3600 0 90000 100 false)).fadeInTime = 0 ∧
    (reloadConfig 48 2 (State.mk 52 (49 / 10) 3600 0 90000 100 false)).transT = 3600 ∧
    (reloadConfig 48 2 (State.mk 52 (49 / 10) 3600 0 90000 100 false)).lat = 48 ∧
    (tick (constSolar 97200) (constSolar 90000) 7200
        (reloadConfig 48 2 (State.mk 52 (49 / 10) 3600 0 90000 100 false))).1.fadeInTime =
      (if 0 < (7200 : ℚ) - 0 ∧ 255 ≤ fadeInPower 3600 ((7200 : ℚ) - 0)
       then constSolar 97200 7200 48 2 - ((3600 : ℕ) : ℚ) / 2
       else 0) := by
  obtain ⟨h1, -, h3, -, -, h6, -, -, -, h10, -⟩ :=
    C8_reload_changes_only_coords 48 2 (constSolar 97200) (constSolar 90000) 7200
      (State.mk 52 (49 / 10) 3600 0 90000 100 false)
  exact ⟨h1, h3, h6, h10 rfl⟩

/-- C9: every brightness level passed to the driver — by a scheduler tick,
the pause ramp, the resume ramp or initialization — lies in [0, 255], and
the recorded `currentPower` stays in [0, 255], whenever the current
`currentPower` is in [0, 255]. -/
theorem C9_driver_levels_in_range (sunset sunrise : SolarFn) (now : ℚ)
    (s : State) (hb0 : 0 ≤ s.brightness) (hb1 : s.brightness ≤ 255) :
    (∀ q ∈ (tick sunset sunrise now s).2, 0 ≤ q ∧ q ≤ 255) ∧
    (0 ≤ (tick sunset sunrise now s).1.brightness ∧
      (tick sunset sunrise now s).1.brightness ≤ 255) ∧
    (∀ q ∈ (pauseOp s).2, 0 ≤ q ∧ q ≤ 255) ∧
    (∀ q ∈ (resumeOp s).2, 0 ≤ q ∧ q ≤ 255) ∧
    (0 ≤ (pauseOp s).1.brightness ∧ (pauseOp s).1.brightness ≤ 255) ∧
    (0 ≤ (resumeOp s).1.brightness ∧ (resumeOp s).1.brightness ≤ 255) ∧
    (0 ≤ initialGlowCall ∧ initialGlowCall ≤ 255) := by
  refine ⟨?_, ?_, ?_, ?_, ?_, ?_, by decide⟩
  · intro q hq
    rw [tick_snd] at hq
    by_cases hpa : s.paused
    · rw [if_pos hpa] at hq
      exact absurd hq (List.not_mem_nil q)
    · rw [if_neg hpa] at hq
      rcases List.mem_append.mp hq with hmem | hmem
      · by_cases hin : 0 < now - s.fadeInTime
        · rw [if_pos hin] at hmem
          rw [List.mem_singleton.mp hmem]
          exact fadeInPower_bounds _ _ (le_of_lt hin)
        · rw [if_neg hin] at hmem
          exact absurd hmem (List.not_mem_nil q)
      · by_cases hout : 0 < now - s.fadeOutTime
        · rw [if_pos hout] at hmem
          rw [List.mem_singleton.mp hmem]
          exact fadeOutPower_bounds _ _ (le_of_lt hout)
        · rw [if_neg hout] at hmem
          exact absurd hmem (List.not_mem_nil q)
  · rw [tick_fst_brightness]
    by_cases hpa : s.paused
    · rw [if_pos hpa]
      exact ⟨hb0, hb1⟩
    · rw [if_neg hpa]
      by_cases hout : 0 < now - s.fadeOutTime
      · rw [if_pos hout]
        exact fadeOutPower_bounds _ _ (le_of_lt hout)
      · rw [if_neg hout]
        by_cases hin : 0 < now - s.fadeInTime
        · rw [if_pos hin]
          exact fadeInPower_bounds _ _ (le_of_lt hin)
        · rw [if_neg hin]
          exact ⟨hb0, hb1⟩
  · intro q hq
    have hmem := pauseLevels_mem s.brightness q hq
    exact ⟨hmem.1, le_trans hmem.2 hb1⟩
  · intro q hq
    exact resumeLevels_mem s.brightness q hb0 hq
  · rw [show (pauseOp s).1.brightness =
        (pauseLevels s.brightness).getLast?.getD s.brightness from rfl,
      (pauseLevels_spec s.brightness hb0).2.2.1]
    exact ⟨le_refl 0, by norm_num⟩
  · rw [show (resumeOp s).1.brightness =
        (resumeLevels s.brightness).getLast?.getD s.brightness from rfl,
      resumeLevels_getLast s.brightness hb1]
    exact ⟨by norm_num, le_refl 255⟩

/-- C9 witness at a concrete state with `currentPower = 100`. -/
theorem C9_driver_levels_in_range_witness :
    (0 : ℤ) ≤ 100 ∧ (100 : ℤ) ≤ 255 ∧
    (0 ≤ (tick (constSolar 97200) (constSolar 90000) 7200
        (State.mk 52 (49 / 10) 3600 0 90000 100 false)).1.brightness ∧
      (tick (constSolar 97200) (constSolar 90000) 7200
        (State.mk 52 (49 / 10) 3600 0 90000 100 false)).1.brightness ≤ 255) ∧
    (0 ≤ (pauseOp (State.mk 52 (49 / 10) 3600 0 90000 100 false)).1.brightness ∧
      (pauseOp (State.mk 52 (49 / 10) 3600 0 90000 100 false)).1.brightness ≤ 255) ∧
    (0 ≤ (resumeOp (State.mk 52 (49 / 10) 3600 0 90000 100 false)).1.brightness ∧
      (resumeOp (State.mk 52 (49 / 10) 3600 0 90000 100 false)).1.brightness ≤ 255) ∧
    (0 ≤ initialGlowCall ∧ initialGlowCall ≤ 255) := by
  obtain ⟨-, h2, -, -, h5, h6, h7⟩ :=
    C9_driver_levels_in_range (constSolar 97200) (constSolar 90000) 7200
      (State.mk 52 (49 / 10) 3600 0 90000 100 false) (by decide) (by decide)
  exact ⟨by decide, by decide, h2, h5, h6, h7⟩

end PiglowAmbient
